import Mathlib

/-!
Shallow embedding of `src/app.py` (Smart City Complaint Portal, Flask).

The ambient effects of the Python code are made explicit:
- the global dict `COMPLAINTS` (app.py:33) becomes a `Store` value threaded
  through each operation, modelled as an insertion-ordered association list
  with dict semantics (lookup and assignment act on the first occurrence of
  a key);
- `time.time()` becomes an explicit `now : Int` argument;
- the configurable `TOKEN_TTL_SECONDS` (app.py:34) becomes an explicit
  `ttl : Int` argument;
- randomness (uuid4 reference ids, secrets tokens, app.py:283-284) becomes
  explicit arguments;
- a Python exception escaping a function is an `Except.error`.
-/

namespace SmartCity

/-- Outcome of a verification attempt, the four user-facing cases of the
verification workflow (app.py:335-354 and 362-381). -/
inductive Outcome
  | verified_now
  | already_invalid_reference
  | expired
  | token_mismatch
deriving DecidableEq, Repr

/-- A Python exception escaping a function of app.py. -/
inductive PyErr
  | typeError
  | valueError
deriving DecidableEq, Repr

/-- A complaint record, mirroring the dict built at app.py:287-295.
The four form fields come from `request.form.get` and hence may be `None`. -/
structure Record where
  name : Option String
  email : Option String
  issue : Option String
  location : Option String
  token : String
  created_at : Int
  verified : Bool
deriving DecidableEq, Repr

/-- The in-memory store `COMPLAINTS` (app.py:33). -/
abbrev Store := List (String × Record)

/-- Dict lookup `COMPLAINTS.get(k)` / `k in COMPLAINTS`: first matching key. -/
def dictGet : Store → String → Option Record
  | [], _ => none
  | (k, v) :: rest, key => if k = key then some v else dictGet rest key

/-- Dict assignment `COMPLAINTS[k] = v` (app.py:287): replace the value at an
existing key, else append a new entry (dicts preserve insertion order). -/
def dictSet : Store → String → Record → Store
  | [], key, v => [(key, v)]
  | (k, w) :: rest, key, v =>
      if k = key then (key, v) :: rest else (k, w) :: dictSet rest key v

/-- The single mutation verification performs: `record["verified"] = True`
(app.py:347 and 373); every other field of the record is kept. -/
def markVerified (r : Record) : Record :=
  ⟨r.name, r.email, r.issue, r.location, r.token, r.created_at, true⟩

/-- `record["verified"] = True` applied in place to the record stored under
`key` (the record aliased by the store, app.py:339/347 and 362/373). -/
def setVerified : Store → String → Store
  | [], _ => []
  | (k, v) :: rest, key =>
      if k = key then (k, markVerified v) :: rest
      else (k, v) :: setVerified rest key

/-- Replace only the token of a record (used to state token-noninterference). -/
def withToken (r : Record) (t : String) : Record :=
  ⟨r.name, r.email, r.issue, r.location, t, r.created_at, r.verified⟩

/-- Code points below 128: CPython's PyUnicode_IS_ASCII test, the
precondition `secrets.compare_digest` places on `str` arguments. -/
def isAsciiStr (s : String) : Bool := s.data.all (fun c => c.toNat < 128)

/-- `secrets.compare_digest` on two `str` arguments (app.py:346 and 372): the
primitive raises `TypeError` unless both strings are ASCII-only, and
otherwise decides equality (in constant time; timing is outside this
functional embedding). The stored token is always ASCII (six decimal digits,
app.py:284), but the supplied token is arbitrary user input — a form field or
a URL path segment — so the error path is reachable. -/
def compare_digest (a b : String) : Except PyErr Bool :=
  if isAsciiStr a && isAsciiStr b then Except.ok (a == b)
  else Except.error PyErr.typeError

/-- The `POST /verify` handler body (app.py:331-354), manual token entry.
`reference_id` and `token` are `request.form.get(...)` results, so each may be
absent (`none`). The handler first tests
`not reference_id or reference_id not in COMPLAINTS` (app.py:335), then the
TTL (app.py:342), then the token (app.py:346). When the token field is absent,
`secrets.compare_digest(record["token"], None)` raises `TypeError`; a
non-ASCII supplied token likewise makes the comparison raise. -/
def verify (ttl : Int) (store : Store) (reference_id token : Option String)
    (now : Int) : Except PyErr (Outcome × Store) :=
  match reference_id with
  | none => Except.ok (Outcome.already_invalid_reference, store)
  | some rid =>
    if rid.isEmpty then Except.ok (Outcome.already_invalid_reference, store)
    else
      match dictGet store rid with
      | none => Except.ok (Outcome.already_invalid_reference, store)
      | some record =>
        if now - record.created_at > ttl then Except.ok (Outcome.expired, store)
        else
          match token with
          | none => Except.error PyErr.typeError
          | some t =>
            match compare_digest record.token t with
            | Except.error e => Except.error e
            | Except.ok true =>
                Except.ok (Outcome.verified_now, setVerified store rid)
            | Except.ok false => Except.ok (Outcome.token_mismatch, store)

/-- The `GET /verify/<reference_id>/<token>` handler (app.py:360-381), the
emailed-link entry point. Path parameters are always present strings. A stored
record is a non-empty dict, hence truthy, so `if not record` (app.py:364) is
exactly the `none` case of the lookup. The comparison at app.py:372 raises
`TypeError` for a non-ASCII path token. -/
def verify_link (ttl : Int) (store : Store) (reference_id token : String)
    (now : Int) : Except PyErr (Outcome × Store) :=
  match dictGet store reference_id with
  | none => Except.ok (Outcome.already_invalid_reference, store)
  | some record =>
    if now - record.created_at > ttl then Except.ok (Outcome.expired, store)
    else
      match compare_digest record.token token with
      | Except.error e => Except.error e
      | Except.ok true =>
          Except.ok (Outcome.verified_now, setVerified store reference_id)
      | Except.ok false => Except.ok (Outcome.token_mismatch, store)

/-- Result of `GET /status/<reference_id>` (app.py:384-393): a 404, or the
dict literal with exactly the keys `reference_id`, `verified`, `created_at`.
The source serialises `created_at` as
`datetime.fromtimestamp(record["created_at"]).isoformat()`; since that
conversion is an injective function of the timestamp, the payload carries the
timestamp itself. -/
inductive StatusResult
  | notFound404
  | payload (reference_id : String) (verified : Bool) (created_at : Int)
deriving DecidableEq, Repr

/-- The `status` route handler (app.py:385-393). -/
def status (store : Store) (reference_id : String) : StatusResult :=
  match dictGet store reference_id with
  | none => StatusResult.notFound404
  | some record => StatusResult.payload reference_id record.verified record.created_at

/-- The flash message chosen by the `POST /` handler (app.py:301-318); each
constructor keeps the data interpolated into the corresponding f-string, and
every variant carries the reference id. -/
inductive FlashMsg
  | submitted_sent (reference_id : String) (email : Option String)
  | submitted_missing_debug (reference_id : String) (missing : List String)
  | submitted_not_sent (reference_id : String)
deriving DecidableEq, Repr

/-- The reference id interpolated into a flash message. -/
def flashRef : FlashMsg → String
  | FlashMsg.submitted_sent rid _ => rid
  | FlashMsg.submitted_missing_debug rid _ => rid
  | FlashMsg.submitted_not_sent rid => rid

/-- What `POST /` leaves behind: the updated store, the reference id it
generated, and the flash message (the response is a redirect; the reference id
reaches the user through the flash). -/
structure IndexPostResult where
  store : Store
  reference_id : String
  flash : FlashMsg
deriving DecidableEq, Repr

/-- The `POST /` handler body (app.py:275-323). `reference_id`, `token` and
`now` stand for the values generated at app.py:283-285 (uuid4, secrets,
`time.time()`). `sent` and `admin_notified` are the boolean results of
`send_verification_email` (app.py:297) and `send_admin_notification`
(app.py:299); `missing` is `_get_missing_smtp_config()` (app.py:308) and
`debug` is `app.debug` (app.py:309). The record is stored at app.py:287,
before either notification call; the notifier results only select the flash
message, and `admin_notified` only affects logging. -/
def index (store : Store) (name email issue location : Option String)
    (reference_id token : String) (now : Int)
    (sent admin_notified debug : Bool) (missing : List String) :
    IndexPostResult :=
  let record : Record := ⟨name, email, issue, location, token, now, false⟩
  let store1 := dictSet store reference_id record
  let msg :=
    if sent then FlashMsg.submitted_sent reference_id email
    else if !missing.isEmpty && debug then
      FlashMsg.submitted_missing_debug reference_id missing
    else FlashMsg.submitted_not_sent reference_id
  ⟨store1, reference_id, msg⟩

end SmartCity

namespace SmartCity

/-- One store-touching request, for stating state-machine invariants over
sequences of operations. `create` carries the generated reference id and
token as data (the generator at app.py:283-284 is random). -/
inductive Op
  | create (name email issue location : Option String)
      (reference_id token : String) (now : Int)
  | verifyPost (reference_id token : Option String) (now : Int)
  | verifyLinkOp (reference_id token : String) (now : Int)
  | statusOp (reference_id : String)

/-- The effect of one operation on the store. A `verify` that raises leaves
the store as it was (the exception propagates before any mutation); `status`
never writes. -/
def applyOp (ttl : Int) (store : Store) : Op → Store
  | Op.create n e i l rid tok now =>
      (index store n e i l rid tok now true true false []).store
  | Op.verifyPost rid tok now =>
      match verify ttl store rid tok now with
      | Except.ok p => p.2
      | Except.error _ => store
  | Op.verifyLinkOp rid tok now =>
      match verify_link ttl store rid tok now with
      | Except.ok p => p.2
      | Except.error _ => store
  | Op.statusOp _ => store

/-- Run a sequence of operations left to right. -/
def runOps (ttl : Int) (store : Store) : List Op → Store
  | [] => store
  | op :: rest => runOps ttl (applyOp ttl store op) rest

/-- Every `create` in the sequence uses a reference id not already present at
the moment it runs — the uniqueness of generated reference ids that the
generation scheme provides (spec: collision probability negligible; the code
has no collision-retry logic). -/
def freshCreates (ttl : Int) : Store → List Op → Bool
  | _, [] => true
  | store, op :: rest =>
      (match op with
       | Op.create _ _ _ _ rid _ _ => (dictGet store rid).isNone
       | _ => true)
      && freshCreates ttl (applyOp ttl store op) rest

/-- A sample record for concrete evaluations: created at time 1000 with token
"123456", unverified. -/
def sampleRec : Record :=
  ⟨some "Ann", some "ann@example.com", some "pothole", some "5th Ave",
   "123456", 1000, false⟩

/-- A sample record that is already verified. -/
def sampleRecVerified : Record := markVerified sampleRec

lemma dictGet_dictSet_self (s : Store) (k : String) (v : Record) :
    dictGet (dictSet s k v) k = some v := by
  induction s with
  | nil => simp [dictGet, dictSet]
  | cons hd tl ih =>
    obtain ⟨k1, v1⟩ := hd
    by_cases h : k1 = k
    · simp [dictGet, dictSet, h]
    · simp [dictGet, dictSet, h, ih]

lemma dictGet_dictSet_ne (s : Store) (k key : String) (v : Record)
    (h : key ≠ k) : dictGet (dictSet s k v) key = dictGet s key := by
  induction s with
  | nil => simp [dictGet, dictSet, Ne.symm h]
  | cons hd tl ih =>
    obtain ⟨k1, v1⟩ := hd
    by_cases h1 : k1 = k
    · subst h1
      simp [dictGet, dictSet, Ne.symm h]
    · simp [dictGet, dictSet, h1, ih]

lemma dictGet_setVerified_self (s : Store) (k : String) :
    dictGet (setVerified s k) k = (dictGet s k).map markVerified := by
  induction s with
  | nil => simp [dictGet, setVerified]
  | cons hd tl ih =>
    obtain ⟨k1, v1⟩ := hd
    by_cases h : k1 = k
    · simp [dictGet, setVerified, h]
    · simp [dictGet, setVerified, h, ih]

lemma dictGet_setVerified_ne (s : Store) (k key : String) (h : key ≠ k) :
    dictGet (setVerified s k) key = dictGet s key := by
  induction s with
  | nil => simp [setVerified]
  | cons hd tl ih =>
    obtain ⟨k1, v1⟩ := hd
    by_cases h1 : k1 = k
    · subst h1
      simp [dictGet, setVerified, Ne.symm h]
    · simp [dictGet, setVerified, h1, ih]

lemma setVerified_of_none (s : Store) (k : String)
    (h : dictGet s k = none) : setVerified s k = s := by
  induction s with
  | nil => simp [setVerified]
  | cons hd tl ih =>
    obtain ⟨k1, v1⟩ := hd
    by_cases h1 : k1 = k
    · simp [dictGet, h1] at h
    · simp [dictGet, h1] at h
      simp [setVerified, h1, ih h]

/-- The store a normally returning `verify_link` call leaves behind is either
untouched or has `verified` set on the looked-up reference id. -/
lemma verify_link_snd (ttl : Int) (store : Store) (rid tok : String)
    (now : Int) (o : Outcome) (s1 : Store)
    (h : verify_link ttl store rid tok now = Except.ok (o, s1)) :
    s1 = store ∨ s1 = setVerified store rid := by
  unfold verify_link at h
  split at h
  · simp only [Except.ok.injEq, Prod.mk.injEq] at h
    exact Or.inl h.2.symm
  · split at h
    · simp only [Except.ok.injEq, Prod.mk.injEq] at h
      exact Or.inl h.2.symm
    · split at h
      · simp at h
      · simp only [Except.ok.injEq, Prod.mk.injEq] at h
        exact Or.inr h.2.symm
      · simp only [Except.ok.injEq, Prod.mk.injEq] at h
        exact Or.inl h.2.symm

/-- Same shape for the `POST /verify` handler: a normal return leaves the
store untouched or marks the looked-up reference id verified. -/
lemma verify_snd (ttl : Int) (store : Store) (rid tok : Option String)
    (now : Int) (o : Outcome) (s1 : Store)
    (h : verify ttl store rid tok now = Except.ok (o, s1)) :
    s1 = store ∨ ∃ k, rid = some k ∧ s1 = setVerified store k := by
  unfold verify at h
  split at h
  · simp only [Except.ok.injEq, Prod.mk.injEq] at h
    exact Or.inl h.2.symm
  · rename_i k
    split at h
    · simp only [Except.ok.injEq, Prod.mk.injEq] at h
      exact Or.inl h.2.symm
    · split at h
      · simp only [Except.ok.injEq, Prod.mk.injEq] at h
        exact Or.inl h.2.symm
      · split at h
        · simp only [Except.ok.injEq, Prod.mk.injEq] at h
          exact Or.inl h.2.symm
        · split at h
          · simp at h
          · split at h
            · simp at h
            · simp only [Except.ok.injEq, Prod.mk.injEq] at h
              exact Or.inr ⟨k, rfl, h.2.symm⟩
            · simp only [Except.ok.injEq, Prod.mk.injEq] at h
              exact Or.inl h.2.symm

/-- C1 (amended): the verification operation tests its cases in this order:
no record for the reference id gives `already_invalid_reference`; else
`now - created_at > TTL` gives `expired`; else the token comparison runs —
and, like `secrets.compare_digest`, raises `TypeError` when the supplied
token is not ASCII-only. On ASCII tokens: equality sets the record's
`verified` field to true and gives `verified_now` (with no condition on the
previous value of `verified`, so repeating with the same correct token again
gives `verified_now`); inequality gives `token_mismatch` (the stored token is
ASCII whenever the record was created by the app, app.py:284). -/
theorem C1_verify_workflow_cases (ttl : Int) (store : Store)
    (rid tok : String) (now : Int) :
    (dictGet store rid = none →
        verify_link ttl store rid tok now =
          Except.ok (Outcome.already_invalid_reference, store)) ∧
    (∀ r, dictGet store rid = some r → now - r.created_at > ttl →
        verify_link ttl store rid tok now =
          Except.ok (Outcome.expired, store)) ∧
    (∀ r, dictGet store rid = some r → ¬(now - r.created_at > ttl) →
        tok = r.token → isAsciiStr tok = true →
        verify_link ttl store rid tok now =
          Except.ok (Outcome.verified_now, setVerified store rid) ∧
        dictGet (setVerified store rid) rid = some (markVerified r)) ∧
    (∀ r, dictGet store rid = some r → ¬(now - r.created_at > ttl) →
        tok ≠ r.token → isAsciiStr tok = true → isAsciiStr r.token = true →
        verify_link ttl store rid tok now =
          Except.ok (Outcome.token_mismatch, store)) ∧
    (∀ r, dictGet store rid = some r → ¬(now - r.created_at > ttl) →
        isAsciiStr tok = false →
        verify_link ttl store rid tok now =
          Except.error PyErr.typeError) := by
  refine ⟨?_, ?_, ?_, ?_, ?_⟩
  · intro hg
    unfold verify_link
    rw [hg]
  · intro r hg hex
    unfold verify_link
    rw [hg]
    simp [hex]
  · intro r hg hex htok ha
    subst htok
    constructor
    · unfold verify_link
      rw [hg]
      simp [hex, compare_digest, ha]
    · rw [dictGet_setVerified_self, hg]
      rfl
  · intro r hg hex htok ha hb
    have hbeq : (r.token == tok) = false :=
      beq_eq_false_iff_ne.mpr (Ne.symm htok)
    have hcd : compare_digest r.token tok = Except.ok false := by
      unfold compare_digest
      rw [ha, hb, hbeq]
      rfl
    unfold verify_link
    rw [hg]
    simp [hex, hcd]
  · intro r hg hex ha
    have hcd : compare_digest r.token tok = Except.error PyErr.typeError := by
      unfold compare_digest
      rw [ha]
      simp
    unfold verify_link
    rw [hg]
    simp [hex, hcd]

/-- C1 counterexample: the claim's unqualified mismatch clause is false on
the code. With an existing, unexpired record, a non-ASCII supplied token
makes `secrets.compare_digest` raise `TypeError` (app.py:372; the same
happens in the form route at app.py:346) instead of producing the
`token_mismatch` outcome. -/
theorem C1_counterexample_nonascii_token_raises :
    verify_link 86400 [("REF-A", sampleRec)] "REF-A" "λλλλλλ" 1001 =
      Except.error PyErr.typeError := by
  rfl

/-- C1 witness: on a store holding one record created at time 1000 with token
"123456", verifying with that token at time 87399 (TTL 86400) returns
`verified_now` and marks the record verified. -/
theorem C1_witness :
    verify_link 86400 [("REF-A", sampleRec)] "REF-A" "123456" 87399 =
        Except.ok (Outcome.verified_now,
          setVerified [("REF-A", sampleRec)] "REF-A") ∧
    dictGet (setVerified [("REF-A", sampleRec)] "REF-A") "REF-A" =
        some (markVerified sampleRec) :=
  (C1_verify_workflow_cases 86400 [("REF-A", sampleRec)] "REF-A" "123456"
      87399).2.2.1 sampleRec (by decide) (by decide) (by decide) (by decide)

/-- C2: for identical (reference_id, token, now) triples with both fields
present (a routed link request always has a non-empty reference id), the
manual-entry route body and the emailed-link route body compute identical
results: the same outcome and resulting store, and the same raised
`TypeError` on a non-ASCII token. The spec's further requirement — that
both routes invoke one identical workflow function — is a structural fact the
source violates: app.py implements the logic twice, inline in `verify`
(lines 331-354) and in `verify_link` (lines 362-381); this theorem shows the
two duplicated blocks are nevertheless extensionally equal. -/
theorem C2_manual_and_link_routes_agree (ttl : Int) (store : Store)
    (rid tok : String) (now : Int) (h : rid.isEmpty = false) :
    verify ttl store (some rid) (some tok) now =
      verify_link ttl store rid tok now := by
  unfold verify verify_link
  cases hg : dictGet store rid with
  | none => simp [h, hg]
  | some r =>
    by_cases hex : now - r.created_at > ttl
    · simp [h, hg, hex]
    · cases hcd : compare_digest r.token tok with
      | error e => simp [h, hg, hex, hcd]
      | ok b => cases b <;> simp [h, hg, hex, hcd]

/-- C2 witness: both entry points on a concrete store and triple. -/
theorem C2_witness :
    verify 86400 [("REF-A", sampleRec)] (some "REF-A") (some "123456") 1000 =
      verify_link 86400 [("REF-A", sampleRec)] "REF-A" "123456" 1000 :=
  C2_manual_and_link_routes_agree 86400 [("REF-A", sampleRec)] "REF-A"
    "123456" 1000 (by decide)

/-- C3: the claim says the verification operation never raises, but the
`POST /verify` handler does: with an existing, unexpired reference id and the
token form field absent (`request.form.get("token")` is `None`),
`secrets.compare_digest(record["token"], None)` at app.py:346 raises
`TypeError` instead of producing one of the four user-facing outcomes. -/
theorem C3_missing_token_field_raises :
    verify 86400 [("REF-A", sampleRec)] (some "REF-A") none 1001 =
      Except.error PyErr.typeError := by
  rfl

lemma get_setVerified_keeps_verified (s : Store) (k rid : String)
    (r : Record) (hr : dictGet s rid = some r) (hv : r.verified = true) :
    ∃ r2, dictGet (setVerified s k) rid = some r2 ∧ r2.verified = true := by
  by_cases hk : rid = k
  · subst hk
    refine ⟨markVerified r, ?_, rfl⟩
    rw [dictGet_setVerified_self, hr]
    rfl
  · refine ⟨r, ?_, hv⟩
    rw [dictGet_setVerified_ne s k rid hk]
    exact hr

lemma applyOp_keeps_verified (ttl : Int) (store : Store) (op : Op)
    (rid : String) (r : Record)
    (hfresh : (match op with
       | Op.create _ _ _ _ k _ _ => (dictGet store k).isNone
       | _ => true) = true)
    (hr : dictGet store rid = some r) (hv : r.verified = true) :
    ∃ r2, dictGet (applyOp ttl store op) rid = some r2 ∧ r2.verified = true := by
  cases op with
  | create n e i l k tok now =>
    simp only [Option.isNone_iff_eq_none] at hfresh
    have hk : rid ≠ k := by
      intro e1
      rw [e1, hfresh] at hr
      exact Option.noConfusion hr
    refine ⟨r, ?_, hv⟩
    show dictGet (dictSet store k ⟨n, e, i, l, tok, now, false⟩) rid = some r
    rw [dictGet_dictSet_ne store k rid ⟨n, e, i, l, tok, now, false⟩ hk]
    exact hr
  | verifyPost rid2 tok now =>
    cases hres : verify ttl store rid2 tok now with
    | error e =>
      refine ⟨r, ?_, hv⟩
      simp only [applyOp]
      rw [hres]
      exact hr
    | ok p =>
      have hgoal : applyOp ttl store (Op.verifyPost rid2 tok now) = p.2 := by
        simp only [applyOp]
        rw [hres]
      rw [hgoal]
      rcases verify_snd ttl store rid2 tok now p.1 p.2 (by rw [hres]) with
        hsame | ⟨k, _, hset⟩
      · rw [hsame]
        exact ⟨r, hr, hv⟩
      · rw [hset]
        exact get_setVerified_keeps_verified store k rid r hr hv
  | verifyLinkOp rid2 tok now =>
    cases hres : verify_link ttl store rid2 tok now with
    | error e =>
      refine ⟨r, ?_, hv⟩
      simp only [applyOp]
      rw [hres]
      exact hr
    | ok p =>
      have hgoal : applyOp ttl store (Op.verifyLinkOp rid2 tok now) = p.2 := by
        simp only [applyOp]
        rw [hres]
      rw [hgoal]
      rcases verify_link_snd ttl store rid2 tok now p.1 p.2 (by rw [hres])
        with hsame | hset
      · rw [hsame]
        exact ⟨r, hr, hv⟩
      · rw [hset]
        exact get_setVerified_keeps_verified store rid2 rid r hr hv
  | statusOp rid2 =>
    exact ⟨r, hr, hv⟩

/-- C4: `verified` is terminal. For any sequence of create, verify (either
entry point) and status operations in which each create uses a reference id
not already present (the uniqueness the generation scheme provides — the code
itself has no collision check, `COMPLAINTS[reference_id] = {...}` at
app.py:287 would overwrite), a record whose `verified` is true still has
`verified = true` after the whole sequence runs. -/
theorem C4_verified_is_terminal (ttl : Int) (store : Store) (ops : List Op)
    (rid : String) (r : Record)
    (hfresh : freshCreates ttl store ops = true)
    (hr : dictGet store rid = some r) (hv : r.verified = true) :
    ∃ r2, dictGet (runOps ttl store ops) rid = some r2 ∧
      r2.verified = true := by
  induction ops generalizing store r with
  | nil => exact ⟨r, hr, hv⟩
  | cons op rest ih =>
    unfold freshCreates at hfresh
    rw [Bool.and_eq_true] at hfresh
    obtain ⟨r2, hr2, hv2⟩ :=
      applyOp_keeps_verified ttl store op rid r hfresh.1 hr hv
    exact ih (applyOp ttl store op) r2 hfresh.2 hr2 hv2

/-- C4 witness: a verified record stays verified across a fresh create, a
link verification with a wrong token, a status lookup, and a manual
verification with a missing token field. -/
theorem C4_witness :
    ∃ r2, dictGet (runOps 86400 [("REF-A", sampleRecVerified)]
        [Op.create none none none none "REF-B" "654321" 2000,
         Op.verifyLinkOp "REF-A" "000000" 2500,
         Op.statusOp "REF-A",
         Op.verifyPost (some "REF-A") none 3000]) "REF-A" = some r2 ∧
      r2.verified = true :=
  C4_verified_is_terminal 86400 [("REF-A", sampleRecVerified)]
    [Op.create none none none none "REF-B" "654321" 2000,
     Op.verifyLinkOp "REF-A" "000000" 2500,
     Op.statusOp "REF-A",
     Op.verifyPost (some "REF-A") none 3000] "REF-A" sampleRecVerified
    (by decide) (by decide) rfl

/-- C5: a verification call that does not return `verified_now` leaves the
store unchanged; in particular an expired record (`now - created_at > TTL`)
gives `expired` without mutating anything even when the token is correct; and
the TTL comparison is strict, so with `now - created_at ≤ TTL` the correct
(ASCII) token still yields `verified_now`. -/
theorem C5_expired_atomicity_strict_ttl (ttl : Int) (store : Store)
    (rid tok : String) (now : Int) :
    (∀ (o : Outcome) (s1 : Store),
        verify_link ttl store rid tok now = Except.ok (o, s1) →
        o ≠ Outcome.verified_now → s1 = store) ∧
    (∀ (rid2 tok2 : Option String) (o : Outcome) (s1 : Store),
        verify ttl store rid2 tok2 now = Except.ok (o, s1) →
        o ≠ Outcome.verified_now → s1 = store) ∧
    (∀ r, dictGet store rid = some r → now - r.created_at > ttl →
        verify_link ttl store rid tok now =
          Except.ok (Outcome.expired, store)) ∧
    (∀ r, dictGet store rid = some r → now - r.created_at ≤ ttl →
        tok = r.token → isAsciiStr tok = true →
        verify_link ttl store rid tok now =
          Except.ok (Outcome.verified_now, setVerified store rid)) := by
  refine ⟨?_, ?_, ?_, ?_⟩
  · intro o s1 h hne
    unfold verify_link at h
    split at h
    · simp only [Except.ok.injEq, Prod.mk.injEq] at h
      exact h.2.symm
    · split at h
      · simp only [Except.ok.injEq, Prod.mk.injEq] at h
        exact h.2.symm
      · split at h
        · simp at h
        · simp only [Except.ok.injEq, Prod.mk.injEq] at h
          exact absurd h.1.symm hne
        · simp only [Except.ok.injEq, Prod.mk.injEq] at h
          exact h.2.symm
  · intro rid2 tok2 o s1 h hne
    unfold verify at h
    split at h
    · simp only [Except.ok.injEq, Prod.mk.injEq] at h
      exact h.2.symm
    · split at h
      · simp only [Except.ok.injEq, Prod.mk.injEq] at h
        exact h.2.symm
      · split at h
        · simp only [Except.ok.injEq, Prod.mk.injEq] at h
          exact h.2.symm
        · split at h
          · simp only [Except.ok.injEq, Prod.mk.injEq] at h
            exact h.2.symm
          · split at h
            · simp at h
            · split at h
              · simp at h
              · simp only [Except.ok.injEq, Prod.mk.injEq] at h
                exact absurd h.1.symm hne
              · simp only [Except.ok.injEq, Prod.mk.injEq] at h
                exact h.2.symm
  · intro r hg hex
    unfold verify_link
    rw [hg]
    simp [hex]
  · intro r hg hle htok ha
    subst htok
    have hex : ¬(now - r.created_at > ttl) := not_lt.mpr hle
    unfold verify_link
    rw [hg]
    simp [hex, compare_digest, ha]

/-- C5 witness: the spec scenario. A record created at `now = 1000` with
`TTL = 86400`: verifying with the correct token at `now = 1000 + 86401`
returns `expired` and leaves the store untouched; verifying at
`now = 1000 + 86399` returns `verified_now`. -/
theorem C5_witness :
    verify_link 86400 [("REF-A", sampleRec)] "REF-A" "123456" 87401 =
        Except.ok (Outcome.expired, [("REF-A", sampleRec)]) ∧
    verify_link 86400 [("REF-A", sampleRec)] "REF-A" "123456" 87399 =
        Except.ok (Outcome.verified_now,
          setVerified [("REF-A", sampleRec)] "REF-A") :=
  ⟨(C5_expired_atomicity_strict_ttl 86400 [("REF-A", sampleRec)] "REF-A"
      "123456" 87401).2.2.1 sampleRec (by decide) (by decide),
   (C5_expired_atomicity_strict_ttl 86400 [("REF-A", sampleRec)] "REF-A"
      "123456" 87399).2.2.2 sampleRec (by decide) (by decide) (by decide)
     (by decide)⟩

/-- C7: `POST /` stores a complete record with `verified = false` before the
notifier runs, and the stored record, the reference id handed back, and the
fact that every flash variant carries the reference id are all independent of
the notifier results (`sent`, `admin_notified`), of `app.debug`, and of the
missing-configuration list. -/
theorem C7_create_stores_record_regardless_of_notification
    (store : Store) (name email issue location : Option String)
    (rid tok : String) (now : Int) (sent admin debug : Bool)
    (missing : List String) :
    (index store name email issue location rid tok now sent admin debug
        missing).reference_id = rid ∧
    (index store name email issue location rid tok now sent admin debug
        missing).store =
      dictSet store rid ⟨name, email, issue, location, tok, now, false⟩ ∧
    dictGet (index store name email issue location rid tok now sent admin
        debug missing).store rid =
      some ⟨name, email, issue, location, tok, now, false⟩ ∧
    flashRef (index store name email issue location rid tok now sent admin
        debug missing).flash = rid := by
  refine ⟨rfl, rfl, ?_, ?_⟩
  · exact dictGet_dictSet_self store rid ⟨name, email, issue, location, tok,
      now, false⟩
  · by_cases hs : sent = true
    · simp [index, flashRef, hs]
    · by_cases hm : (!missing.isEmpty && debug) = true
      · simp [index, flashRef, hs, hm]
      · simp [index, flashRef, hs, hm]

/-- C8: the status route returns a 404 exactly when the reference id is
absent, otherwise the payload built from exactly the reference id, the
`verified` flag and the `created_at` timestamp; the record's token never
influences the output (records differing only in their token give identical
status responses). -/
theorem C8_status_payload_never_reveals_token (store : Store) (rid : String) :
    (dictGet store rid = none →
        status store rid = StatusResult.notFound404) ∧
    (∀ r, dictGet store rid = some r →
        status store rid = StatusResult.payload rid r.verified r.created_at) ∧
    (∀ (r : Record) (t1 t2 : String),
        status (dictSet store rid (withToken r t1)) rid =
          status (dictSet store rid (withToken r t2)) rid) := by
  refine ⟨?_, ?_, ?_⟩
  · intro hg
    unfold status
    rw [hg]
  · intro r hg
    unfold status
    rw [hg]
  · intro r t1 t2
    unfold status
    rw [dictGet_dictSet_self, dictGet_dictSet_self]
    rfl

/-- C8 witness: a concrete lookup returns the three-field payload. -/
theorem C8_witness :
    status [("REF-A", sampleRec)] "REF-A" =
      StatusResult.payload "REF-A" sampleRec.verified sampleRec.created_at :=
  (C8_status_payload_never_reveals_token [("REF-A", sampleRec)]
      "REF-A").2.1 sampleRec (by decide)

/-- C9: a verification call (either entry point) changes at most the
`verified` field of the record named by the given reference id: every other
key of the store is untouched, the named record is either unchanged or
replaced by `markVerified` of itself, and `markVerified` keeps every field
other than `verified`. -/
theorem C9_verification_frame (ttl : Int) (store : Store) (rid tok : String)
    (now : Int) :
    (∀ (o : Outcome) (s1 : Store),
        verify_link ttl store rid tok now = Except.ok (o, s1) →
        ∀ k, k ≠ rid → dictGet s1 k = dictGet store k) ∧
    (∀ (o : Outcome) (s1 : Store),
        verify_link ttl store rid tok now = Except.ok (o, s1) →
        ∀ r, dictGet store rid = some r →
          dictGet s1 rid = some r ∨
          dictGet s1 rid = some (markVerified r)) ∧
    (∀ r : Record, (markVerified r).name = r.name ∧
        (markVerified r).email = r.email ∧
        (markVerified r).issue = r.issue ∧
        (markVerified r).location = r.location ∧
        (markVerified r).token = r.token ∧
        (markVerified r).created_at = r.created_at) ∧
    (∀ (rid2 tok2 : Option String) (o : Outcome) (s1 : Store),
        verify ttl store rid2 tok2 now = Except.ok (o, s1) →
        (∀ k, rid2 ≠ some k → dictGet s1 k = dictGet store k) ∧
        (∀ k r, dictGet store k = some r →
            dictGet s1 k = some r ∨ dictGet s1 k = some (markVerified r))) := by
  refine ⟨?_, ?_, ?_, ?_⟩
  · intro o s1 h k hk
    rcases verify_link_snd ttl store rid tok now o s1 h with hs | hs
    · rw [hs]
    · rw [hs, dictGet_setVerified_ne store rid k hk]
  · intro o s1 h r hr
    rcases verify_link_snd ttl store rid tok now o s1 h with hs | hs
    · rw [hs]
      exact Or.inl hr
    · rw [hs]
      right
      rw [dictGet_setVerified_self, hr]
      rfl
  · intro r
    exact ⟨rfl, rfl, rfl, rfl, rfl, rfl⟩
  · intro rid2 tok2 o s1 h
    rcases verify_snd ttl store rid2 tok2 now o s1 h with hs | ⟨k2, hk2, hs⟩
    · subst hs
      exact ⟨fun k _ => rfl, fun k r hr => Or.inl hr⟩
    · subst hs
      refine ⟨?_, ?_⟩
      · intro k hk
        have hne : k ≠ k2 := by
          intro e1
          apply hk
          rw [hk2, e1]
        exact dictGet_setVerified_ne store k2 k hne
      · intro k r hr
        by_cases hkk : k = k2
        · subst hkk
          right
          rw [dictGet_setVerified_self, hr]
          rfl
        · left
          rw [dictGet_setVerified_ne store k2 k hkk]
          exact hr

/-- C9 witness: a wrong-token link verification returns normally and leaves
the named record unchanged or merely marked verified, at a concrete store. -/
theorem C9_witness :
    dictGet [("REF-A", sampleRec)] "REF-A" = some sampleRec ∨
    dictGet [("REF-A", sampleRec)] "REF-A" = some (markVerified sampleRec) :=
  (C9_verification_frame 86400 [("REF-A", sampleRec)] "REF-A" "999999"
      5000).2.1 Outcome.token_mismatch [("REF-A", sampleRec)] (by rfl)
    sampleRec (by decide)

/-- Python truthiness of an optional environment/form string: `None` and the
empty string are falsy. -/
def truthyStr : Option String → Bool
  | none => false
  | some s => !s.isEmpty

/-- Python `x or y` on optional strings (app.py:61,
`os.environ.get("SENDER_EMAIL") or smtp_user`). -/
def pyOr (a b : Option String) : Option String :=
  if truthyStr a then a else b

/-- Decimal digits to a number, for `int()` on strings. -/
def pyIntDigits (cs : List Char) : Option Nat :=
  if cs.isEmpty then none
  else if cs.all Char.isDigit then
    some (cs.foldl (fun acc c => 10 * acc + (c.toNat - 48)) 0)
  else none

/-- `int(s)` for a string argument (app.py:57, :186): strip surrounding
whitespace, allow an optional sign, then require a non-empty run of decimal
digits; anything else raises `ValueError`, modelled as `none`. -/
def pyInt (s : String) : Option Int :=
  let cs :=
    ((s.data.dropWhile Char.isWhitespace).reverse.dropWhile
        Char.isWhitespace).reverse
  match cs with
  | '-' :: rest => (pyIntDigits rest).map (fun n => -(n : Int))
  | '+' :: rest => (pyIntDigits rest).map (fun n => (n : Int))
  | _ => (pyIntDigits cs).map (fun n => (n : Int))

/-- The SMTP-related environment as `send_verification_email` reads it
(app.py:56-61): the raw `os.environ.get` results (`none` when unset), plus
the development backend selector (app.py:39, already lower-cased). The TLS
flag only chooses between two transport code paths that are both inside the
`try` block, so it does not affect the returned value and is omitted. -/
structure SmtpEnv where
  smtp_host : Option String
  smtp_port : Option String
  smtp_username : Option String
  smtp_password : Option String
  sender_email : Option String
  dev_email_backend : String
deriving DecidableEq, Repr

/-- `send_verification_email` (app.py:43-146), with the message body
abstracted away (it never affects the returned value) and the SMTP transport
abstracted as `transport_ok`: whether the `smtplib` calls inside the `try`
block complete without raising. Faithful control flow: first
`int(os.environ.get("SMTP_PORT", "0"))` at app.py:57 — a ValueError here
propagates, it is outside any try; then the missing-configuration check
(a port of 0 is falsy and counts as missing); then the development backends
(console/file both return True, the file writes modelled as succeeding); then
the transport, whose exceptions are caught and turned into True (file
backend, the failed email is saved) or False. -/
def send_verification_email (env : SmtpEnv) (transport_ok : Bool) :
    Except PyErr Bool :=
  match pyInt ((env.smtp_port).getD "0") with
  | none => Except.error PyErr.valueError
  | some smtp_port =>
    let sender := pyOr env.sender_email env.smtp_username
    let missing : List String :=
      (if !truthyStr env.smtp_host then ["SMTP_HOST"] else []) ++
      (if smtp_port = 0 then ["SMTP_PORT"] else []) ++
      (if !truthyStr env.smtp_username then ["SMTP_USERNAME"] else []) ++
      (if !truthyStr env.smtp_password then ["SMTP_PASSWORD"] else []) ++
      (if !truthyStr sender then ["SENDER_EMAIL"] else [])
    if !missing.isEmpty then
      if env.dev_email_backend = "console" then Except.ok true
      else if env.dev_email_backend = "file" then Except.ok true
      else Except.ok false
    else if transport_ok then Except.ok true
    else if env.dev_email_backend = "file" then Except.ok true
    else Except.ok false

/-- C10: the claim says the notifier never raises and reports every failure
as a boolean False, but `send_verification_email` evaluates
`int(os.environ.get("SMTP_PORT", "0"))` at app.py:57 before its `try` block:
with `SMTP_PORT` set to a non-numeric value such as "x1" it raises
`ValueError` to its caller instead of returning False
(`send_admin_notification` has the same expression at app.py:186). -/
theorem C10_bad_smtp_port_raises :
    send_verification_email
        ⟨none, some "x1", none, none, none, ""⟩ true =
      Except.error PyErr.valueError := by
  rfl

end SmartCity
